import Mathlib

/-!
Verification of the radiko client core (`radiko-client.ts` and its historical
variant) against its specification: authentication partial-key derivation,
XML-adapter parsing of station lists and program guides, the program-guide
disk cache, and the recording / tagging pipeline.

The TypeScript source is shallowly embedded: effectful steps (file system,
network, external processes) are passed in explicitly as environment values,
and each function is translated branch by branch from its source.
-/

namespace Radiko

/-- The error kinds of the specification.  The source throws plain `Error`
values; each throw site is mapped to its spec kind. -/
inductive RadikoError where
  | authError : RadikoError
  | networkError : RadikoError
  | parseError : RadikoError
  | configError : RadikoError
  | toolUnavailableError : RadikoError
  | recordingError : Int → RadikoError
  /-- an unhandled JavaScript TypeError (e.g. calling `.map` on a non-array) -/
  | typeError : RadikoError
  /-- an unhandled file-system error (e.g. a failed `writeFile`) -/
  | ioError : RadikoError
deriving DecidableEq

/-! ## JavaScript number and string-slice semantics

`getPartialKeyFromAuthResponse` feeds `Number(header)` values into
`String.prototype.slice`.  We model the values that can arise from integer
header strings: either NaN or a mathematical integer.  (`Number()` also
accepts fractional and hex literals, which do not occur in this protocol;
any string our `jsNumber` maps to `nan` that JavaScript would accept
numerically is outside the modelled header language.) -/

inductive JsNum where
  | nan : JsNum
  | int : Int → JsNum
deriving DecidableEq

/-- NaN-propagating addition, as in `offset + length`. -/
def jsAdd : JsNum → JsNum → JsNum
  | .int a, .int b => .int (a + b)
  | _, _ => .nan

/-- Models `ToIntegerOrInfinity` as used by `String.prototype.slice`: NaN becomes 0. -/
def jsToInt : JsNum → Int
  | .nan => 0
  | .int i => i

def isJsWhitespace (c : Char) : Bool :=
  c == ' ' || c == '\t' || c == '\n' || c == '\r'

/-- Value of a non-empty all-digit character list, else `none`. -/
def decDigitsVal (cs : List Char) : Option Nat :=
  if cs = [] then none
  else if cs.all Char.isDigit then
    some (cs.foldl (fun acc c => acc * 10 + (c.toNat - 48)) 0)
  else none

/-- Models `Number(s)` for (possibly signed) decimal-integer strings: surrounding
whitespace is trimmed, the empty string is 0, anything else non-numeric is
NaN. -/
def jsNumber (s : String) : JsNum :=
  let t := ((s.toList.dropWhile isJsWhitespace).reverse.dropWhile isJsWhitespace).reverse
  match t with
  | [] => .int 0
  | '+' :: rest =>
    match decDigitsVal rest with
    | some n => .int n
    | none => .nan
  | '-' :: rest =>
    match decDigitsVal rest with
    | some n => .int (-(n : Int))
    | none => .nan
  | _ =>
    match decDigitsVal t with
    | some n => .int n
    | none => .nan

/-- Models `s.slice(start, stop)` of ECMAScript, restricted to ASCII strings (where
UTF-16 code units coincide with characters): negative indices count from the
end, indices are clamped to `[0, length]`, NaN becomes 0. -/
def jsSlice (s : String) (start stop : JsNum) : String :=
  let len : Int := s.toList.length
  let intStart := jsToInt start
  let intEnd := jsToInt stop
  let lo : Int := if intStart < 0 then max (len + intStart) 0 else min intStart len
  let hi : Int := if intEnd < 0 then max (len + intEnd) 0 else min intEnd len
  if lo < hi then String.mk ((s.toList.drop lo.toNat).take (hi - lo).toNat) else ""

/-! ## Base64 (`Buffer.from(str).toString("base64")`)

The partial-key base is a substring of the ASCII secret, so its UTF-8 bytes
are exactly its character codes. -/

def base64Alphabet : List Char :=
  "ABCDEFGHIJKLMNOPQRSTUVWXYZabcdefghijklmnopqrstuvwxyz0123456789+/".toList

def b64c (n : Nat) : Char := base64Alphabet.getD n '='

/-- RFC 4648 base64 of a byte list, with `=` padding. -/
def base64Encode : List Nat → String
  | [] => ""
  | [a] => String.mk [b64c (a / 4), b64c (a % 4 * 16), '=', '=']
  | [a, b] => String.mk [b64c (a / 4), b64c (a % 4 * 16 + b / 16), b64c (b % 16 * 4), '=']
  | a :: b :: c :: rest =>
    String.mk [b64c (a / 4), b64c (a % 4 * 16 + b / 16), b64c (b % 16 * 4 + c / 64), b64c (c % 64)]
      ++ base64Encode rest

/-- Bytes of an ASCII string. -/
def asciiBytes (s : String) : List Nat := s.toList.map Char.toNat

/-! ## Authentication: partial-key derivation -/

/-- The constant `RadikoClient.AUTH_KEY`, the fixed shared secret. -/
def AUTH_KEY : String := "bcd151073c03b352e1ef2fd66c32209da9ca0afa"

/-- Embeds `getPartialKeyFromAuthResponse`: reads the `X-Radiko-KeyOffset` and
`X-Radiko-KeyLength` response headers (`none` = header absent).  The source
guards with `!offsetHeader || !lengthHeader`, so an empty-string header is
rejected like an absent one (JS falsiness); then
`AUTH_KEY.slice(offset, offset + length)` is base64-encoded. -/
def getPartialKeyFromAuthResponse (keyOffset keyLength : Option String) :
    Except RadikoError String :=
  match keyOffset, keyLength with
  | some offsetHeader, some lengthHeader =>
    if offsetHeader = "" ∨ lengthHeader = "" then .error .authError
    else
      let offset := jsNumber offsetHeader
      let len := jsNumber lengthHeader
      .ok (base64Encode (asciiBytes (jsSlice AUTH_KEY offset (jsAdd offset len))))
  | _, _ => .error .authError

/-- For natural offset and length, the JavaScript slice
`s.slice(offset, offset + length)` is exactly the substring of `s` of (at
most) `length` characters beginning at index `offset`. -/
theorem jsSlice_nat (s : String) (o l : Nat) :
    jsSlice s (.int o) (.int (o + l)) = String.mk ((s.toList.drop o).take l) := by
  have hc : (o : Int) + (l : Int) = ((o + l : Nat) : Int) := by push_cast; ring
  have h1 : ¬((o : Int) < 0) := by omega
  have h2 : ¬(((o + l : Nat) : Int) < 0) := by omega
  simp only [jsSlice, jsToInt, hc, h1, h2, if_false, ← Nat.cast_min, Int.toNat_natCast,
    Nat.cast_lt]
  have hsub : ((min (o + l) s.toList.length : Nat) : Int) - ((min o s.toList.length : Nat) : Int)
      = (((min (o + l) s.toList.length - min o s.toList.length : Nat)) : Int) := by omega
  rw [hsub, Int.toNat_natCast]
  by_cases hcond : min o s.toList.length < min (o + l) s.toList.length
  · rw [if_pos hcond]
    have ho : o < s.toList.length := by omega
    have hmo : min o s.toList.length = o := by omega
    rw [hmo]
    by_cases hol : o + l ≤ s.toList.length
    · have hme : min (o + l) s.toList.length = o + l := by omega
      have harith : o + l - o = l := by omega
      rw [hme, harith]
    · have hml : min (o + l) s.toList.length = s.toList.length := by omega
      rw [hml, List.take_of_length_le (le_of_eq (List.length_drop o s.toList)),
        List.take_of_length_le (by rw [List.length_drop]; omega)]
  · rw [if_neg hcond]
    by_cases hno : s.toList.length ≤ o
    · rw [List.drop_eq_nil_of_le hno, List.take_nil]
    · have hl0 : l = 0 := by omega
      rw [hl0, List.take_zero]

/-- C1: For every offset and length supplied in the handshake-start response
headers, the partial key equals `base64(AUTH_KEY.slice(offset, offset+length))`;
for natural offset/length the slice is the corresponding substring of the
secret, and in particular offset 4 / length 12 yields the base64 encoding of
the 12-character substring of the secret beginning at index 4, which is
`"NTEwNzNjMDNiMzUy"`. -/
theorem getPartialKey_eq_base64_slice (ho hl : String)
    (hne1 : ho ≠ "") (hne2 : hl ≠ "") :
    getPartialKeyFromAuthResponse (some ho) (some hl) =
      .ok (base64Encode (asciiBytes
        (jsSlice AUTH_KEY (jsNumber ho) (jsAdd (jsNumber ho) (jsNumber hl))))) ∧
    (∀ o l : Nat, jsSlice AUTH_KEY (.int o) (.int (o + l)) =
      String.mk ((AUTH_KEY.toList.drop o).take l)) ∧
    getPartialKeyFromAuthResponse (some "4") (some "12") =
      .ok (base64Encode (asciiBytes (String.mk ((AUTH_KEY.toList.drop 4).take 12)))) ∧
    getPartialKeyFromAuthResponse (some "4") (some "12") = .ok "NTEwNzNjMDNiMzUy" := by
  refine ⟨?_, fun o l => jsSlice_nat AUTH_KEY o l, by rfl, by rfl⟩
  simp only [getPartialKeyFromAuthResponse, hne1, hne2, false_or, if_false, or_self]

/-- Closed instance of `getPartialKey_eq_base64_slice` at the protocol's
example headers offset `"4"`, length `"12"`. -/
theorem getPartialKey_eq_base64_slice_witness :
    getPartialKeyFromAuthResponse (some "4") (some "12") =
      .ok (base64Encode (asciiBytes
        (jsSlice AUTH_KEY (jsNumber "4") (jsAdd (jsNumber "4") (jsNumber "12"))))) :=
  (getPartialKey_eq_base64_slice "4" "12" (by decide) (by decide)).1

/-- C10: If both key headers are present and non-empty but not parseable as
numbers, `getPartialKeyFromAuthResponse` does not fail: `Number()` yields NaN,
the slice with NaN bounds is the empty substring, and the partial key is the
base64 encoding of the empty string, i.e. `""`. -/
theorem getPartialKey_nan_headers (ho hl : String)
    (hne1 : ho ≠ "") (hne2 : hl ≠ "")
    (hnan1 : jsNumber ho = .nan) (hnan2 : jsNumber hl = .nan) :
    getPartialKeyFromAuthResponse (some ho) (some hl) =
      .ok (base64Encode (asciiBytes "")) ∧
    base64Encode (asciiBytes "") = "" := by
  refine ⟨?_, rfl⟩
  simp only [getPartialKeyFromAuthResponse, hne1, hne2, false_or, if_false, or_self,
    hnan1, hnan2]
  rfl

/-- Closed instance of `getPartialKey_nan_headers` at the non-numeric headers
`"abc"` and `"xyz"`. -/
theorem getPartialKey_nan_headers_witness :
    getPartialKeyFromAuthResponse (some "abc") (some "xyz") =
      .ok (base64Encode (asciiBytes "")) ∧
    base64Encode (asciiBytes "") = "" :=
  getPartialKey_nan_headers "abc" "xyz" (by decide) (by decide) (by rfl) (by rfl)

/-! ## XML adapter (fast-xml-parser) and the two document parsers

`XMLParser` with default options maps repeated child elements to a JavaScript
value that depends on the multiplicity: zero occurrences leave the key
absent (`undefined`), exactly one occurrence is collapsed to the bare node
object, and two or more become an array.  `FxpNodes` is that value for a
repeated-element key, and `fxpCollapse` is the adapter applied to the
document-order node list. -/

inductive FxpNodes (α : Type) where
  | undef : FxpNodes α
  | scalar : α → FxpNodes α
  | arr : List α → FxpNodes α
deriving DecidableEq

def fxpCollapse {α : Type} : List α → FxpNodes α
  | [] => .undef
  | [x] => .scalar x
  | xs => .arr xs

structure Station where
  id : String
  name : String
deriving DecidableEq

/-- Embeds `parseStationListXml`, applied to the station nodes of the document in
document order.  The source reads `jsonObj.stations.station` — i.e. the
adapter value `fxpCollapse stationNodes` — and immediately calls `.map` on
it: if the adapter collapsed the list (zero or one station node), the value
is not an array and `.map` throws a TypeError. -/
def parseStationListXml (stationNodes : List Station) :
    Except RadikoError (List Station) :=
  match fxpCollapse stationNodes with
  | .arr stationsArray => .ok (stationsArray.map fun s => { id := s.id, name := s.name })
  | .scalar _ => .error .typeError
  | .undef => .error .typeError

structure ProgNode where
  id : String
  title : String
  ft : String
  timeTo : String
  img : String
  pfm : String
deriving DecidableEq

/-- The `radiko.stations.station` node of a program-guide document: its
`id` attribute and `name` child may be absent, and `progs` (when present)
holds the `prog` schedule-entry nodes in document order. -/
structure ProgStationNode where
  attrId : Option String
  name : Option String
  progs : Option (List ProgNode)
deriving DecidableEq

/-- A program-guide document, as seen through the optional chain
`jsonObj?.radiko?.stations?.station`: absence at any level of the chain
collapses to an absent station node. -/
structure ProgGuideDoc where
  station : Option ProgStationNode
deriving DecidableEq

structure RadikoProgram where
  id : String
  title : String
  ft : String
  timeTo : String
  img : String
  pfm : String
  stationId : String
  stationName : String
deriving DecidableEq

/-- JavaScript `v || dflt` for an optional string: both `undefined` and the
empty string are falsy. -/
def jsStrOr (v : Option String) (dflt : String) : String :=
  match v with
  | some s => if s = "" then dflt else s
  | none => dflt

/-- Embeds `parseRadikoProgramXml`: station id/name are read once from the document
root with `||`-defaults; `progs?.prog` is the adapter value of the schedule
entries, `if (!programNodes) return []` handles the absent key, and
`Array.isArray(programNodes) ? programNodes : [programNodes]` re-wraps a
collapsed singleton. -/
def parseRadikoProgramXml (doc : ProgGuideDoc) : List RadikoProgram :=
  let stationId := jsStrOr (doc.station.bind ProgStationNode.attrId) "Unknown Station ID"
  let stationName := jsStrOr (doc.station.bind ProgStationNode.name) "Unknown Station"
  let programNodes : FxpNodes ProgNode :=
    match doc.station.bind ProgStationNode.progs with
    | none => .undef
    | some progChildren => fxpCollapse progChildren
  let programs : List ProgNode :=
    match programNodes with
    | .undef => []
    | .scalar p => [p]
    | .arr ps => ps
  programs.map fun p =>
    { id := p.id, title := p.title, ft := p.ft, timeTo := p.timeTo, img := p.img,
      pfm := p.pfm, stationId := stationId, stationName := stationName }

/-- C2 (counter-evidence): a station-list document with exactly one station
node does not parse to a one-element sequence — the singleton is collapsed
by the XML adapter and the parser's unguarded `.map` throws a TypeError —
while a two-station document parses to the full two-element sequence. -/
theorem parseStationListXml_singleton_is_error :
    parseStationListXml [{ id := "TBS", name := "TBS RADIO" }] = .error .typeError ∧
    parseStationListXml [{ id := "TBS", name := "TBS RADIO" }, { id := "QRR", name := "BUNKA" }]
      = .ok [{ id := "TBS", name := "TBS RADIO" }, { id := "QRR", name := "BUNKA" }] :=
  ⟨rfl, rfl⟩

/-- C8: a program-guide document with zero schedule-entry nodes (whether the
`progs` element is absent or empty) parses to the empty sequence without
error, and when the root station id/name are absent every parsed program
carries the sentinel values `"Unknown Station ID"` / `"Unknown Station"`. -/
theorem parseRadikoProgramXml_empty_and_defaults (doc doc2 : ProgGuideDoc)
    (hzero : doc.station.bind ProgStationNode.progs = none ∨
      doc.station.bind ProgStationNode.progs = some [])
    (hid : doc2.station.bind ProgStationNode.attrId = none)
    (hname : doc2.station.bind ProgStationNode.name = none) :
    parseRadikoProgramXml doc = [] ∧
    ∀ p ∈ parseRadikoProgramXml doc2,
      p.stationId = "Unknown Station ID" ∧ p.stationName = "Unknown Station" := by
  constructor
  · rcases hzero with h | h <;>
      simp [parseRadikoProgramXml, h, fxpCollapse]
  · intro p hp
    simp only [parseRadikoProgramXml, hid, hname, jsStrOr, List.mem_map] at hp
    obtain ⟨q, _, hq⟩ := hp
    rw [← hq]
    exact ⟨rfl, rfl⟩

/-- Closed instance of `parseRadikoProgramXml_empty_and_defaults`: a document
whose station carries an empty `progs` element, and a one-entry document with
no root id/name. -/
theorem parseRadikoProgramXml_empty_and_defaults_witness :
    parseRadikoProgramXml { station := some { attrId := some "TBS", name := some "TBS RADIO", progs := some [] } } = [] ∧
    ∀ p ∈ parseRadikoProgramXml { station := some { attrId := none, name := none, progs := some [{ id := "1", title := "t", ft := "20230101010000", timeTo := "20230101020000", img := "i", pfm := "p" }] } },
      p.stationId = "Unknown Station ID" ∧ p.stationName = "Unknown Station" :=
  parseRadikoProgramXml_empty_and_defaults _ _ (Or.inr rfl) rfl rfl

/-! ## Program-guide disk cache (`fetchProgramsXml` of the cached variant)

The file-system and network steps of one `fetchProgramsXml(stationId, date)`
call are passed in as an environment: the outcome of `stat(cachePath)`, of
`readFile(cachePath)`, of the network `fetch` (`some body` iff
`response.ok`), and of the cache write-back `writeFile`. -/

structure CacheStats where
  /-- the value `stats.mtime.getTime()` in milliseconds -/
  mtimeMs : Int
deriving DecidableEq

structure FetchEnv where
  /-- the value `new Date().getTime()` in milliseconds -/
  nowMs : Int
  statResult : Except Unit CacheStats
  readResult : Except Unit String
  networkResult : Option String
  writeResult : Except Unit Unit

structure FetchOutcome where
  result : Except RadikoError String
  networkCalled : Bool
  cacheWritten : Bool

/-- The constant `cacheExpiry = 60 * 60 * 1000` (one hour). -/
def cacheExpiry : Int := 60 * 60 * 1000

/-- Embeds `fetchProgramsXml`, branch by branch: the `try` block stats the cache
file and, if the entry is fresh, returns the cached body; any error thrown
by `stat` or `readFile` is caught and ignored.  Then the network fetch runs;
a non-success status throws the spec's `NetworkError`; on success the body
is written back to the cache by an unguarded `await writeFile`, so a write
failure propagates out of the call. -/
def fetchProgramsXml (env : FetchEnv) : FetchOutcome :=
  let cached : Option String :=
    match env.statResult with
    | .ok stats =>
      if env.nowMs - stats.mtimeMs < cacheExpiry then
        match env.readResult with
        | .ok body => some body
        | .error _ => none
      else none
    | .error _ => none
  match cached with
  | some body => { result := .ok body, networkCalled := false, cacheWritten := false }
  | none =>
    match env.networkResult with
    | none => { result := .error .networkError, networkCalled := true, cacheWritten := false }
    | some xmlData =>
      match env.writeResult with
      | .ok _ => { result := .ok xmlData, networkCalled := true, cacheWritten := true }
      | .error _ => { result := .error .ioError, networkCalled := true, cacheWritten := false }

/-- C3: the fetch is cache-first — a fresh, readable cache entry is returned
with no network call — and a stat or read failure is treated exactly like a
cache miss (the network fetch proceeds, and the call's outcome is identical
to the outcome with no cache entry at all). -/
theorem fetchProgramsXml_cache_first (env envFail : FetchEnv) (stats : CacheStats) (body : String)
    (hstat : env.statResult = .ok stats)
    (hfresh : env.nowMs - stats.mtimeMs < cacheExpiry)
    (hread : env.readResult = .ok body)
    (hfail : envFail.statResult = .error () ∨ envFail.readResult = .error ()) :
    fetchProgramsXml env
      = { result := .ok body, networkCalled := false, cacheWritten := false } ∧
    (fetchProgramsXml envFail).networkCalled = true ∧
    fetchProgramsXml envFail = fetchProgramsXml { envFail with statResult := .error () } := by
  refine ⟨?_, ?_, ?_⟩
  · simp [fetchProgramsXml, hstat, hfresh, hread]
  · rcases hfail with h | h
    · rcases hnet : envFail.networkResult with _ | xmlData <;>
        rcases hw : envFail.writeResult with _ | _ <;>
          simp [fetchProgramsXml, h, hnet, hw]
    · rcases hst : envFail.statResult with _ | stats2 <;>
        rcases hnet : envFail.networkResult with _ | xmlData <;>
          rcases hw : envFail.writeResult with _ | _ <;>
            simp [fetchProgramsXml, h, hst, hnet, hw]
  · rcases hfail with h | h
    · simp [fetchProgramsXml, h]
    · rcases hst : envFail.statResult with _ | stats2 <;>
        simp [fetchProgramsXml, h, hst]

/-- Closed instance of `fetchProgramsXml_cache_first`: a ten-minute-old cache
entry is served without a network call, and a stat failure proceeds to the
network. -/
theorem fetchProgramsXml_cache_first_witness :
    fetchProgramsXml (FetchEnv.mk 600000 (.ok (CacheStats.mk 0)) (.ok "<radiko/>") (some "<net/>") (.ok ()))
      = { result := .ok "<radiko/>", networkCalled := false, cacheWritten := false } ∧
    (fetchProgramsXml (FetchEnv.mk 600000 (.error ()) (.error ()) (some "<net/>") (.ok ()))).networkCalled = true ∧
    fetchProgramsXml (FetchEnv.mk 600000 (.error ()) (.error ()) (some "<net/>") (.ok ()))
      = fetchProgramsXml { FetchEnv.mk 600000 (.error ()) (.error ()) (some "<net/>") (.ok ()) with statResult := .error () } :=
  fetchProgramsXml_cache_first _ _ (CacheStats.mk 0) "<radiko/>" rfl (by decide) rfl (Or.inl rfl)

/-- C4 (counter-evidence): with no usable cache and a successful network
fetch, a failing cache write-back makes the whole call fail — the unguarded
`await writeFile` propagates — instead of being logged and ignored. -/
theorem fetchProgramsXml_write_failure_fails_call :
    (fetchProgramsXml (FetchEnv.mk 0 (.error ()) (.error ()) (some "<radiko/>") (.error ()))).result
      = .error .ioError :=
  rfl

/-- C5 (counterexample): a usable stale cache entry exists (`stat` and
`readFile` would both succeed) and the network fetch returns a non-success
status; the call still fails with `NetworkError` instead of returning the
cached body — there is no stale-cache fallback in the code. -/
theorem fetchProgramsXml_no_stale_fallback :
    (fetchProgramsXml (FetchEnv.mk (2 * cacheExpiry) (.ok (CacheStats.mk 0)) (.ok "<cached/>") none (.ok ()))).result
      = .error .networkError :=
  rfl

/-- C5 (amended): whenever the fresh-cache pre-check does not hit (no cache
entry, stale entry, or unreadable entry) and the network fetch returns a
non-success status, `fetchProgramsXml` fails with `NetworkError`,
regardless of any cached body on disk. -/
theorem fetchProgramsXml_network_error_unconditional (env : FetchEnv)
    (hnohit : ∀ stats body, env.statResult = .ok stats → env.readResult = .ok body →
      cacheExpiry ≤ env.nowMs - stats.mtimeMs)
    (hnet : env.networkResult = none) :
    (fetchProgramsXml env).result = .error .networkError := by
  rcases hst : env.statResult with _ | stats
  · simp [fetchProgramsXml, hst, hnet]
  · rcases hrd : env.readResult with _ | body
    · simp [fetchProgramsXml, hst, hrd, hnet]
    · have := hnohit stats body hst hrd
      simp [fetchProgramsXml, hst, hrd, hnet, not_lt.mpr this]

/-- Closed instance of `fetchProgramsXml_network_error_unconditional` at a
two-hour-old (stale) cache entry. -/
theorem fetchProgramsXml_network_error_unconditional_witness :
    (fetchProgramsXml (FetchEnv.mk (2 * cacheExpiry) (.ok (CacheStats.mk 0)) (.ok "<stale/>") none (.ok ()))).result
      = .error .networkError :=
  fetchProgramsXml_network_error_unconditional _
    (fun stats body hst _ => by
      injection hst with h
      rw [← h]
      decide)
    rfl

/-! ## Recording pipeline

A small file-system state (association of paths to file contents) models the
temp-directory and save-directory files a recording job touches.  `fsWrite`
and `fsRm` model `writeFile` and `rm(..., { force: true })`; `fsRename`
models `rename`, a no-op when the source is absent (the pipeline only
renames a file it has just recorded). -/

abbrev FS := List (String × String)

def fsGet (fs : FS) (p : String) : Option String :=
  (fs.find? fun e => e.1 = p).map Prod.snd

def fsWrite (fs : FS) (p c : String) : FS :=
  (p, c) :: fs.filter fun e => e.1 ≠ p

def fsRm (fs : FS) (p : String) : FS :=
  fs.filter fun e => e.1 ≠ p

def fsRename (fs : FS) (src dst : String) : FS :=
  match fsGet fs src with
  | some c => fsWrite (fsRm fs src) dst c
  | none => fs

theorem fsGet_write_self (fs : FS) (p c : String) : fsGet (fsWrite fs p c) p = some c := by
  simp [fsGet, fsWrite, List.find?_cons_of_pos]

theorem fsGet_filter_ne (fs : FS) (p : String) :
    fsGet (fs.filter fun e => e.1 ≠ p) p = none := by
  induction fs with
  | nil => rfl
  | cons e rest ih =>
    by_cases he : e.1 = p
    · rw [List.filter_cons_of_neg (by simp [he])]
      exact ih
    · rw [List.filter_cons_of_pos (by simp [he])]
      simp only [fsGet] at ih ⊢
      rw [List.find?_cons_of_neg _ (by simp [he])]
      exact ih

theorem fsGet_rm_self (fs : FS) (p : String) : fsGet (fsRm fs p) p = none :=
  fsGet_filter_ne fs p

theorem fsGet_write_other (fs : FS) (p q c : String) (h : p ≠ q) :
    fsGet (fsWrite fs q c) p = fsGet fs p := by
  simp only [fsGet, fsWrite]
  rw [List.find?_cons_of_neg _ (by simp [Ne.symm h])]
  induction fs with
  | nil => rfl
  | cons e rest ih =>
    by_cases he : e.1 = q
    · rw [List.filter_cons_of_neg (by simp [he])]
      rw [List.find?_cons_of_neg _ (by simp [he, Ne.symm h])]
      exact ih
    · by_cases hp : e.1 = p
      · rw [List.filter_cons_of_pos (by simp [he])]
        rw [List.find?_cons_of_pos _ (by simp [hp]), List.find?_cons_of_pos _ (by simp [hp])]
      · rw [List.filter_cons_of_pos (by simp [he])]
        rw [List.find?_cons_of_neg _ (by simp [hp]), List.find?_cons_of_neg _ (by simp [hp])]
        exact ih

theorem fsGet_rm_other (fs : FS) (p q : String) (h : p ≠ q) :
    fsGet (fsRm fs q) p = fsGet fs p := by
  simp only [fsGet, fsRm]
  induction fs with
  | nil => rfl
  | cons e rest ih =>
    by_cases he : e.1 = q
    · rw [List.filter_cons_of_neg (by simp [he])]
      rw [List.find?_cons_of_neg _ (by simp [he, Ne.symm h])]
      exact ih
    · by_cases hp : e.1 = p
      · rw [List.filter_cons_of_pos (by simp [he])]
        rw [List.find?_cons_of_pos _ (by simp [hp]), List.find?_cons_of_pos _ (by simp [hp])]
      · rw [List.filter_cons_of_pos (by simp [he])]
        rw [List.find?_cons_of_neg _ (by simp [hp]), List.find?_cons_of_neg _ (by simp [hp])]
        exact ih

/-! ### Output path (`recordProgram`, path computation) -/

/-- The character class of the sanitising regex `/[/:*?"<>|]/g`. -/
def illegalFilenameChars : List Char := ['/', ':', '*', '?', '"', '<', '>', '|']

/-- The sanitisation `programTitle.replace(/[/:*?"<>|]/g, "_")`. -/
def safeProgramTitle (programTitle : String) : String :=
  String.mk (programTitle.toList.map fun c => if c ∈ illegalFilenameChars then '_' else c)

/-- The filename template of stationId, sanitized title and start time, with extension `.m4a`. -/
def recordingFilename (stationId programTitle startTime : String) : String :=
  stationId ++ "_" ++ safeProgramTitle programTitle ++ "_" ++ startTime ++ ".m4a"

/-- Models `path.join(dir, name)` for an already-normalised directory argument. -/
def pathJoin (dir name : String) : String :=
  if dir = "" then name
  else if dir.endsWith "/" then dir ++ name
  else dir ++ "/" ++ name

/-- The path `join(saveDirectory, filename)` computed by `recordProgram`. -/
def finalOutputPath (saveDirectory stationId programTitle startTime : String) : String :=
  pathJoin saveDirectory (recordingFilename stationId programTitle startTime)

/-- C9: the final output path is the deterministic function
`join(saveDirectory, stationId ++ "_" ++ sanitizedTitle ++ "_" ++ startTime ++ ".m4a")`
of the job parameters, and sanitisation is exactly per-character: the title
keeps its length, every character of the illegal class becomes `_`, and
every other character is kept unchanged. -/
theorem finalOutputPath_deterministic (saveDirectory stationId programTitle startTime : String)
    (i : Nat) (hi : i < programTitle.toList.length) :
    finalOutputPath saveDirectory stationId programTitle startTime
      = pathJoin saveDirectory
          (stationId ++ "_" ++ safeProgramTitle programTitle ++ "_" ++ startTime ++ ".m4a") ∧
    (safeProgramTitle programTitle).toList.length = programTitle.toList.length ∧
    (safeProgramTitle programTitle).toList.getD i ' '
      = (if programTitle.toList.getD i ' ' ∈ illegalFilenameChars then '_'
         else programTitle.toList.getD i ' ') := by
  refine ⟨rfl, by simp [safeProgramTitle], ?_⟩
  have hmk : (safeProgramTitle programTitle).toList
      = programTitle.toList.map fun c => if c ∈ illegalFilenameChars then '_' else c := rfl
  rw [hmk, List.getD_eq_getElem _ _ (by simpa using hi), List.getD_eq_getElem _ _ hi,
    List.getElem_map]

/-- Closed instance of `finalOutputPath_deterministic` at a title containing
an illegal character. -/
theorem finalOutputPath_deterministic_witness :
    finalOutputPath "/save" "TBS" "a/b" "20230101010000"
      = pathJoin "/save" ("TBS" ++ "_" ++ safeProgramTitle "a/b" ++ "_" ++ "20230101010000" ++ ".m4a") ∧
    (safeProgramTitle "a/b").toList.length = "a/b".toList.length ∧
    (safeProgramTitle "a/b").toList.getD 1 ' '
      = (if "a/b".toList.getD 1 ' ' ∈ illegalFilenameChars then '_'
         else "a/b".toList.getD 1 ' ') :=
  finalOutputPath_deterministic "/save" "TBS" "a/b" "20230101010000" 1 (by decide)

/-! ### `addMetadata` (the tagging step) -/

/-- The argument list `recordProgram`'s tagging step passes to the external
tool: `-y -i audio`, the optional image input with stream mapping and
attached-picture disposition, then the metadata pairs, the fixed tag-format
version, and the output path. -/
def ffmpegMetadataArgs (audioFilePath outputFilePath title artist album : String)
    (imageFilePath : Option String) : List String :=
  ["-y", "-i", audioFilePath]
    ++ (match imageFilePath with
        | some img => ["-i", img, "-map", "0:a", "-map", "1:v", "-c", "copy",
            "-disposition:1", "attached_pic"]
        | none => [])
    ++ ["-metadata", "title=" ++ title, "-metadata", "artist=" ++ artist,
        "-metadata", "album=" ++ album, "-id3v2_version", "3", outputFilePath]

/-- Outcome of one external-process invocation: whether `spawn` could start
the tool, and its exit code. -/
structure SpawnEnv where
  startOk : Bool
  exitCode : Int

/-- Result of `addMetadata` together with the argument lists of the processes
it spawned. -/
structure MetaOutcome where
  result : Except RadikoError String
  spawnedArgs : List (List String)

/-- Embeds `addMetadata`: rejects immediately (before any `spawn`) when the input
and output paths coincide; otherwise spawns exactly one tool process and
maps its outcome — start failure, zero exit, non-zero exit — to the spec's
error kinds. -/
def addMetadata (audioFilePath outputFilePath title artist album : String)
    (imageFilePath : Option String) (env : SpawnEnv) : MetaOutcome :=
  if audioFilePath = outputFilePath then
    { result := .error .configError, spawnedArgs := [] }
  else
    let args := ffmpegMetadataArgs audioFilePath outputFilePath title artist album imageFilePath
    if !env.startOk then
      { result := .error .toolUnavailableError, spawnedArgs := [args] }
    else if env.exitCode = 0 then
      { result := .ok outputFilePath, spawnedArgs := [args] }
    else
      { result := .error (.recordingError env.exitCode), spawnedArgs := [args] }

/-- C7: `addMetadata` with equal input and output paths fails with
`ConfigError` having spawned no process, and with unequal paths it spawns
exactly one process. -/
theorem addMetadata_same_path_no_spawn
    (audioFilePath outputFilePath title artist album : String)
    (imageFilePath : Option String) (env : SpawnEnv) :
    (audioFilePath = outputFilePath →
      (addMetadata audioFilePath outputFilePath title artist album imageFilePath env).result
          = .error .configError ∧
      (addMetadata audioFilePath outputFilePath title artist album imageFilePath env).spawnedArgs.length
          = 0) ∧
    (audioFilePath ≠ outputFilePath →
      (addMetadata audioFilePath outputFilePath title artist album imageFilePath env).spawnedArgs.length
          = 1) := by
  constructor
  · intro h
    constructor <;> simp [addMetadata, h]
  · intro h
    by_cases hs : env.startOk <;> by_cases he : env.exitCode = 0 <;>
      simp [addMetadata, h, hs, he]

/-- Closed instance of `addMetadata_same_path_no_spawn` at equal paths
`"/x.m4a"` (no spawn) and at unequal paths (one spawn). -/
theorem addMetadata_same_path_no_spawn_witness :
    ((addMetadata "/x.m4a" "/x.m4a" "t" "a" "al" none (SpawnEnv.mk true 0)).result
        = .error .configError ∧
      (addMetadata "/x.m4a" "/x.m4a" "t" "a" "al" none (SpawnEnv.mk true 0)).spawnedArgs.length = 0) ∧
    (addMetadata "/tmp/x.m4a" "/save/y.m4a" "t" "a" "al" none (SpawnEnv.mk true 0)).spawnedArgs.length = 1 :=
  ⟨(addMetadata_same_path_no_spawn "/x.m4a" "/x.m4a" "t" "a" "al" none (SpawnEnv.mk true 0)).1 rfl,
    (addMetadata_same_path_no_spawn "/tmp/x.m4a" "/save/y.m4a" "t" "a" "al" none (SpawnEnv.mk true 0)).2 (by decide)⟩

/-! ### `recordProgram`, cover-image branch

After a successful raw recording to `tempAudioPath`, the `try` block
downloads the cover image to `tempImagePath` and runs the tagging step into
`finalPath`; the `catch` renames the raw temp audio to `finalPath`; the
`finally` removes `tempAudioPath` and, when it was assigned,
`tempImagePath`, both with `force: true`.  The three points where this can
fail — the image fetch, the image `writeFile`, the tagging process — are
environment knobs; local `rename`/`rm` of just-created temp files are
modelled as succeeding. -/

structure RecordEnv where
  /-- the cover-image `fetch` returned ok and its body was read -/
  downloadOk : Bool
  /-- the downloaded cover-image bytes -/
  imageBytes : String
  /-- the call `writeFile(tempImagePath, imageBuffer)` succeeded -/
  imageWriteOk : Bool
  /-- the tagging process started and exited with code 0 -/
  tagOk : Bool

structure RecordOutcome where
  result : Except RadikoError String
  fs : FS

/-- Stand-in for the tagged file the external tool writes on success: some
content distinct from the raw audio, built from the tagging inputs. -/
def taggedContent (rawAudio imageBytes title artist album : String) : String :=
  "tagged:" ++ title ++ ":" ++ artist ++ ":" ++ album ++ ":" ++ imageBytes ++ ":" ++ rawAudio

/-- The cover-image branch of `recordProgram`, starting from the successful
raw recording (`executeRecording` wrote `rawAudio` to `tempAudioPath`). -/
def recordProgramWithImage (env : RecordEnv)
    (tempAudioPath tempImagePath finalPath rawAudio title artist album : String)
    (fs0 : FS) : RecordOutcome :=
  let fs1 := fsWrite fs0 tempAudioPath rawAudio
  if !env.downloadOk then
    -- the image fetch threw inside `try` before `tempImagePath` was
    -- assigned: `catch` renames the raw audio, `finally` removes only the
    -- temp audio path
    let fs2 := fsRename fs1 tempAudioPath finalPath
    { result := .ok finalPath, fs := fsRm fs2 tempAudioPath }
  else if !env.imageWriteOk then
    -- `tempImagePath` is assigned but its `writeFile` threw: `catch`
    -- renames, `finally` removes both temp paths
    let fs2 := fsRename fs1 tempAudioPath finalPath
    { result := .ok finalPath, fs := fsRm (fsRm fs2 tempAudioPath) tempImagePath }
  else
    let fs2 := fsWrite fs1 tempImagePath env.imageBytes
    if tempAudioPath = finalPath then
      -- `addMetadata` rejects before spawning; `catch` renames (a same-path
      -- no-op), `finally` removes both temp paths
      let fs3 := fsRename fs2 tempAudioPath finalPath
      { result := .ok finalPath, fs := fsRm (fsRm fs3 tempAudioPath) tempImagePath }
    else if env.tagOk then
      let fs3 := fsWrite fs2 finalPath (taggedContent rawAudio env.imageBytes title artist album)
      { result := .ok finalPath, fs := fsRm (fsRm fs3 tempAudioPath) tempImagePath }
    else
      -- the tagging process exited non-zero: `catch` renames the raw audio
      let fs3 := fsRename fs2 tempAudioPath finalPath
      { result := .ok finalPath, fs := fsRm (fsRm fs3 tempAudioPath) tempImagePath }

/-- C6: whenever the cover download, the image write, or the tagging step
fails after a successful raw recording, the job still succeeds: the final
path holds exactly the raw audio content, and both temporary files are
absent afterwards. -/
theorem recordProgram_tag_failure_fallback (env : RecordEnv)
    (tempAudioPath tempImagePath finalPath rawAudio title artist album : String) (fs0 : FS)
    (hfail : env.downloadOk = false ∨ env.imageWriteOk = false ∨ env.tagOk = false)
    (h1 : tempAudioPath ≠ finalPath) (h2 : tempImagePath ≠ finalPath)
    (h3 : tempAudioPath ≠ tempImagePath)
    (h0 : fsGet fs0 tempImagePath = none) :
    (recordProgramWithImage env tempAudioPath tempImagePath finalPath rawAudio title artist album fs0).result
        = .ok finalPath ∧
    fsGet (recordProgramWithImage env tempAudioPath tempImagePath finalPath rawAudio title artist album fs0).fs finalPath
        = some rawAudio ∧
    fsGet (recordProgramWithImage env tempAudioPath tempImagePath finalPath rawAudio title artist album fs0).fs tempAudioPath
        = none ∧
    fsGet (recordProgramWithImage env tempAudioPath tempImagePath finalPath rawAudio title artist album fs0).fs tempImagePath
        = none := by
  have h1s := Ne.symm h1
  have h2s := Ne.symm h2
  have h3s := Ne.symm h3
  by_cases hd : env.downloadOk
  · by_cases hw : env.imageWriteOk
    · have ht : env.tagOk = false := by
        rcases hfail with h | h | h
        · rw [hd] at h; exact absurd h (by simp)
        · rw [hw] at h; exact absurd h (by simp)
        · exact h
      simp [recordProgramWithImage, hd, hw, ht, h1, fsRename, fsGet_write_self,
        fsGet_write_other, fsGet_rm_self, fsGet_rm_other, h1s, h2, h2s, h3, h3s, h0]
    · simp only [Bool.not_eq_true] at hw
      simp [recordProgramWithImage, hd, hw, fsRename, fsGet_write_self,
        fsGet_write_other, fsGet_rm_self, fsGet_rm_other, h1, h1s, h2, h2s, h3, h3s, h0]
  · simp only [Bool.not_eq_true] at hd
    simp [recordProgramWithImage, hd, fsRename, fsGet_write_self,
      fsGet_write_other, fsGet_rm_self, fsGet_rm_other, h1, h1s, h2, h2s, h3, h3s, h0]

/-- Closed instance of `recordProgram_tag_failure_fallback`: a failed
tagging process on concrete distinct temp/final paths, starting from an
empty file system. -/
theorem recordProgram_tag_failure_fallback_witness :
    (recordProgramWithImage (RecordEnv.mk true "img" true false) "/tmp/radiko_temp_1.m4a" "/tmp/radiko_cover_1.jpg" "/save/TBS_show_20230101010000.m4a" "raw" "show" "pfm" "TBS RADIO" []).result
        = .ok "/save/TBS_show_20230101010000.m4a" ∧
    fsGet (recordProgramWithImage (RecordEnv.mk true "img" true false) "/tmp/radiko_temp_1.m4a" "/tmp/radiko_cover_1.jpg" "/save/TBS_show_20230101010000.m4a" "raw" "show" "pfm" "TBS RADIO" []).fs "/save/TBS_show_20230101010000.m4a"
        = some "raw" ∧
    fsGet (recordProgramWithImage (RecordEnv.mk true "img" true false) "/tmp/radiko_temp_1.m4a" "/tmp/radiko_cover_1.jpg" "/save/TBS_show_20230101010000.m4a" "raw" "show" "pfm" "TBS RADIO" []).fs "/tmp/radiko_temp_1.m4a"
        = none ∧
    fsGet (recordProgramWithImage (RecordEnv.mk true "img" true false) "/tmp/radiko_temp_1.m4a" "/tmp/radiko_cover_1.jpg" "/save/TBS_show_20230101010000.m4a" "raw" "show" "pfm" "TBS RADIO" []).fs "/tmp/radiko_cover_1.jpg"
        = none :=
  recordProgram_tag_failure_fallback (RecordEnv.mk true "img" true false)
    "/tmp/radiko_temp_1.m4a" "/tmp/radiko_cover_1.jpg" "/save/TBS_show_20230101010000.m4a"
    "raw" "show" "pfm" "TBS RADIO" []
    (Or.inr (Or.inr rfl)) (by decide) (by decide) (by decide) rfl

end Radiko
